import Mathlib

/-!
Shallow embedding of the warehouse coordination backend
(`src/backend/index.js`): the global mutable `systemState`, the inventory
ledger table `reparto`, the MQTT message dispatcher, the emergency-stop
handler, and the HTTP endpoints `/api/qr-entrada`, `/api/salida-particulares`,
`/api/salida-centro` and `/api/reset-emergency`.

Conventions of the embedding:
- The Postgres table `reparto` is a `List RepartoRecord`; `oneOrNone ... WHERE
  id = $1` is `List.find?`, `DELETE ... WHERE id = $1` is a filter, the
  `UPDATE reparto SET location = $1, timestamp_recepcion = NOW()` is a map.
- `NOW()` is passed in as an explicit `now : Nat` tick.
- MQTT publishes performed by a handler are collected into a list of
  `(topic, payload)` pairs, in call order.
- JavaScript truthiness (`x || d`, `!x`, `if (x)`) is embedded explicitly:
  `null`/`undefined` is `Option.none`, and the number `0` and the empty
  string are falsy.
-/

/-- JS `a || d` for a nullable integer column: `null`, `undefined` and `0`
are falsy, anything else is itself. -/
def jsOrNat (a : Option Nat) (d : Nat) : Nat :=
  match a with
  | none => d
  | some 0 => d
  | some n => n

/-- JS `s || d` for a possibly-absent string: `undefined`/`null` and `""`
are falsy. -/
def jsOrString (s : Option String) (d : String) : String :=
  match s with
  | none => d
  | some t => if t = "" then d else t

/-- JS truthiness of a nullable integer (`if (x)`): `null` and `0` are falsy. -/
def jsTruthyNat (a : Option Nat) : Bool :=
  match a with
  | none => false
  | some 0 => false
  | some _ => true

/-- One row of the `reparto` ledger table:
`reparto(id, almacen, lectura, location, cantidad, timestamp_recepcion)`. -/
structure RepartoRecord where
  id : Nat
  almacen : String
  lectura : String
  location : Option Nat
  cantidad : Option Nat
  timestampRecepcion : Option Nat
  deriving Repr, DecidableEq

/-- The `systemState.currentOperation` object built by the entry/exit
handlers. All creation sites in the source assign the fields
`type, position, cantidad, productId, almacen, phase, agvTargetPosition`;
no creation site assigns `mode`, but `handleEmergencyStop` reads
`currentOperation?.mode`, so it is kept as an optional field. -/
structure Operation where
  type : String
  position : Nat
  cantidad : Nat
  productId : String
  almacen : String
  phase : String
  agvTargetPosition : Nat
  mode : Option String
  deriving Repr, DecidableEq

/-- The `systemState.agvStatus` object. -/
structure AgvStatus where
  ubicacion : Int
  estado : String
  deriving Repr, DecidableEq

/-- The global `systemState` object. -/
structure SystemState where
  emergencyStop : Bool
  conveyor1Status : String
  conveyor2Status : String
  infrared1Status : Int
  infrared2Status : Int
  agvStatus : AgvStatus
  pendingBoxes : Nat
  currentOperation : Option Operation
  deriving Repr, DecidableEq

/-- The initial `systemState` literal from the source. -/
def initialSystemState : SystemState :=
  { emergencyStop := false
    conveyor1Status := "Parado"
    conveyor2Status := "Parado"
    infrared1Status := 0
    infrared2Status := 0
    agvStatus := { ubicacion := 0, estado := "drop" }
    pendingBoxes := 0
    currentOperation := none }

/-- The query `SELECT location FROM reparto WHERE location IS NOT NULL AND almacen = $1`
followed by `new Set(usedLocations.map(row => parseInt(row.location)))`:
the list of occupied locations of one warehouse. -/
def usedLocationSet (ledger : List RepartoRecord) (almacen : String) : List Nat :=
  (ledger.filter (fun r => r.location.isSome && r.almacen == almacen)).filterMap
    (fun r => r.location)

/-- The loop `for (let i = 1; i <= 5; i++) if (!usedLocationSet.has(i)) ...`:
the first position in `1..5` not contained in `used`, if any. -/
def findAvailablePosition (used : List Nat) : Option Nat :=
  [1, 2, 3, 4, 5].find? (fun i => !used.contains i)

/-- The statement `UPDATE reparto SET location = $1, timestamp_recepcion = NOW() WHERE id = $2`. -/
def updateLocation (ledger : List RepartoRecord) (id : Nat) (loc : Nat)
    (now : Nat) : List RepartoRecord :=
  ledger.map (fun r =>
    if r.id == id then { r with location := some loc, timestampRecepcion := some now }
    else r)

/-- The payload template string
`{"accion": "entrada", "cantidad": "${cantidad}", "posicion": "${availablePosition}"}`. -/
def entradaDirective (cantidad : Nat) (posicion : Nat) : String :=
  "\x7b\"accion\": \"entrada\", \"cantidad\": \"" ++ toString cantidad ++
    "\", \"posicion\": \"" ++ toString posicion ++ "\"\x7d"

/-- Result of one `/api/qr-entrada` request: HTTP status, the response
fields, the system state and ledger after the request, and the MQTT
publishes it performed. The success response body of this endpoint has the
keys `success, location, cantidad, message` (no `simulation` key, modelled
by `simulation := none`). -/
structure QrEntradaResult where
  status : Nat
  location : Option Nat
  cantidad : Option Nat
  simulation : Option Bool
  state : SystemState
  ledger : List RepartoRecord
  published : List (String × String)
  deriving Repr, DecidableEq

/-- The route `app.post("/api/qr-entrada")`, lines 219–313 of the source. It
reads only `req.body.id` (it performs no password check). -/
def qrEntrada (st : SystemState) (ledger : List RepartoRecord)
    (id : Option Nat) (now : Nat) : QrEntradaResult :=
  match id with
  | none =>
    { status := 400, location := none, cantidad := none, simulation := none
      state := st, ledger := ledger, published := [] }
  | some pid =>
    match ledger.find? (fun r => r.id == pid) with
    | none =>
      { status := 404, location := none, cantidad := none, simulation := none
        state := st, ledger := ledger, published := [] }
    | some product =>
      let almacen := product.almacen
      let cantidad := jsOrNat product.cantidad 12
      let used := usedLocationSet ledger almacen
      match findAvailablePosition used with
      | none =>
        { status := 400, location := none, cantidad := none, simulation := none
          state := st, ledger := ledger, published := [] }
      | some availablePosition =>
        let st' : SystemState :=
          { st with
            currentOperation := some
              { type := "entrada"
                position := availablePosition
                cantidad := cantidad
                productId := toString pid
                almacen := almacen
                phase := "picking_from_storage"
                agvTargetPosition := availablePosition
                mode := none }
            pendingBoxes := cantidad }
        let pubs :=
          if almacen = "Vera" then
            [("PR2A1/acciones/directriz", entradaDirective cantidad availablePosition)]
          else []
        { status := 200, location := some availablePosition
          cantidad := some cantidad, simulation := none
          state := st', ledger := updateLocation ledger pid availablePosition now
          published := pubs }

/-- The helper `verifyPwd`: `req.body.password === process.env.ADMIN_PWD`. -/
def verifyPwd (adminPwd : String) (password : Option String) : Bool :=
  password == some adminPwd

/-- The `/api/qr-entrada` route as the HTTP layer sees it: it receives the
whole request body, including whatever `password` field the client sent,
but the handler never reads it and never calls `verifyPwd`. -/
def qrEntradaRoute (adminPwd : String) (password : Option String)
    (st : SystemState) (ledger : List RepartoRecord) (id : Option Nat)
    (now : Nat) : QrEntradaResult :=
  qrEntrada st ledger id now

/-- The string `JSON.stringify({accion: "parada"})`. -/
def paradaPayload : String := "\x7b\"accion\":\"parada\"\x7d"

/-- The string `JSON.stringify({accion: "parada", modo})`. -/
def paletizajeParadaPayload (modo : String) : String :=
  "\x7b\"accion\":\"parada\",\"modo\":\"" ++ modo ++ "\"\x7d"

/-- The function `handleEmergencyStop()`, lines 180–216 of the source: reads
`currentOperation?.almacen || "Vera"`, publishes the four stop directives
when that warehouse is `"Vera"` (log-only otherwise), then clears
`currentOperation` and `pendingBoxes`. It does not itself set
`emergencyStop` (the message dispatcher does that before calling it).
Returns the new state and the publishes performed. -/
def handleEmergencyStop (st : SystemState) : SystemState × List (String × String) :=
  let almacen := jsOrString (st.currentOperation.map (fun op => op.almacen)) "Vera"
  let pubs :=
    if almacen = "Vera" then
      [ ("PR2A1/acciones/conveyor_1", paradaPayload)
      , ("PR2A1/acciones/conveyor_2", paradaPayload)
      , ("PR2A1/acciones/paletizaje", paletizajeParadaPayload
          (jsOrString (st.currentOperation.bind (fun op => op.mode)) "paletizar"))
      , ("PR2A1/cobot/recogida", paradaPayload) ]
    else []
  ({ st with currentOperation := none, pendingBoxes := 0 }, pubs)

/-- The `case 'PR2A1/avisos/parada_emergencia'` branch of the MQTT message
dispatcher (lines 124–128): any message on the topic sets
`systemState.emergencyStop = true` and calls `handleEmergencyStop()`;
the payload is ignored. -/
def onEmergencyMessage (st : SystemState) : SystemState × List (String × String) :=
  handleEmergencyStop { st with emergencyStop := true }

/-- The four stop directives of the emergency path, in publish order:
conveyor 1, conveyor 2, palletizing (carrying `modo`), cobot pickup. -/
def emergencyStopDirectives (modo : String) : List (String × String) :=
  [ ("PR2A1/acciones/conveyor_1", paradaPayload)
  , ("PR2A1/acciones/conveyor_2", paradaPayload)
  , ("PR2A1/acciones/paletizaje", paletizajeParadaPayload modo)
  , ("PR2A1/cobot/recogida", paradaPayload) ]

/-- Result of one `/api/salida-particulares` or `/api/salida-centro`
request. The success body has keys
`success, posicion, cantidad, almacen, simulation`. -/
structure SalidaResult where
  status : Nat
  posicion : Option Nat
  cantidad : Option Nat
  almacen : Option String
  simulation : Option Bool
  state : SystemState
  ledger : List RepartoRecord
  published : List (String × String)
  deriving Repr, DecidableEq

/-- The payload template
`{"accion": "${tipo}", "posicion": "${location}", "cantidad": "${boxCount}"}`
used by both salida endpoints. -/
def salidaDirective (tipo : String) (posicion : Nat) (boxCount : Nat) : String :=
  "\x7b\"accion\": \"" ++ tipo ++ "\", \"posicion\": \"" ++ toString posicion ++
    "\", \"cantidad\": \"" ++ toString boxCount ++ "\"\x7d"

/-- Common body of `/api/salida-particulares` (`setPending = true`) and
`/api/salida-centro` (`setPending = false`); the two routes are verbatim
copies of each other except for the operation `type` string and that only
salida-particulares writes `systemState.pendingBoxes`. -/
def salidaBody (tipo : String) (setPending : Bool) (adminPwd : String)
    (password : Option String) (st : SystemState)
    (ledger : List RepartoRecord) (id : Nat) : SalidaResult :=
  if !verifyPwd adminPwd password then
    { status := 403, posicion := none, cantidad := none, almacen := none
      simulation := none, state := st, ledger := ledger, published := [] }
  else
    match ledger.find? (fun r => r.id == id) with
    | none =>
      { status := 404, posicion := none, cantidad := none, almacen := none
        simulation := none, state := st, ledger := ledger, published := [] }
    | some reparto =>
      if !jsTruthyNat reparto.location then
        { status := 400, posicion := none, cantidad := none, almacen := none
          simulation := none, state := st, ledger := ledger, published := [] }
      else
        let location := reparto.location.getD 0
        let almacen := reparto.almacen
        let boxCount := jsOrNat reparto.cantidad 10
        let st' : SystemState :=
          { st with
            currentOperation := some
              { type := tipo
                position := location
                cantidad := boxCount
                productId := reparto.lectura
                almacen := almacen
                phase := "picking_from_storage"
                agvTargetPosition := location
                mode := none }
            pendingBoxes := if setPending then boxCount else st.pendingBoxes }
        let pubs :=
          if almacen = "Vera" then
            [("PR2A1/acciones/directriz", salidaDirective tipo location boxCount)]
          else []
        { status := 200, posicion := some location, cantidad := some boxCount
          almacen := some almacen
          simulation := some (!(almacen == "Vera"))
          state := st'
          ledger := ledger.filter (fun r => !(r.id == id))
          published := pubs }

/-- The route `app.post("/api/salida-particulares")`, lines 460–530. -/
def salidaParticulares (adminPwd : String) (password : Option String)
    (st : SystemState) (ledger : List RepartoRecord) (id : Nat) : SalidaResult :=
  salidaBody "salida_particulares" true adminPwd password st ledger id

/-- The route `app.post("/api/salida-centro")`, lines 533–598. -/
def salidaCentro (adminPwd : String) (password : Option String)
    (st : SystemState) (ledger : List RepartoRecord) (id : Nat) : SalidaResult :=
  salidaBody "salida_centro" false adminPwd password st ledger id

/-- The route `app.post("/api/reset-emergency")`, lines 601–611: after `verifyPwd`
it runs `systemState.emergencyStop = false` and nothing else. Returns the
HTTP status and the state after the request. -/
def resetEmergency (adminPwd : String) (password : Option String)
    (st : SystemState) : Nat × SystemState :=
  if !verifyPwd adminPwd password then (403, st)
  else (200, { st with emergencyStop := false })

/-- JS truthiness of a possibly-absent string: `null`/`undefined` and `""`
are falsy. -/
def jsTruthyString (s : Option String) : Bool :=
  match s with
  | none => false
  | some t => !(t == "")

/-- The decoded QR payload `{id, cantidad, lectura}` handled by
`handleQrCodeEntry` (after the optional `'QR Code'`-wrapper JSON unwrap,
which is pure decoding and is modelled as already done). -/
structure QrPayload where
  id : Option Nat
  cantidad : Option Nat
  lectura : Option String
  deriving Repr, DecidableEq

/-- The statement `UPDATE reparto SET location = $1, timestamp_recepcion = NOW() WHERE lectura = $2`. -/
def updateLocationByLectura (ledger : List RepartoRecord) (lectura : String)
    (loc : Nat) (now : Nat) : List RepartoRecord :=
  ledger.map (fun r =>
    if r.lectura == lectura then
      { r with location := some loc, timestampRecepcion := some now }
    else r)

/-- The function `handleQrCodeEntry(qrData)`, lines 316–427: the MQTT-triggered entrance
path. Same allocation algorithm as `/api/qr-entrada`; failures return
silently (no HTTP response). Returns the state, ledger and publishes after
the call. -/
def handleQrCodeEntry (st : SystemState) (ledger : List RepartoRecord)
    (qr : QrPayload) (now : Nat) : SystemState × List RepartoRecord × List (String × String) :=
  let cantidad := jsOrNat qr.cantidad 12
  if !jsTruthyNat qr.id && !jsTruthyString qr.lectura then (st, ledger, [])
  else
    let product? :=
      if jsTruthyNat qr.id then ledger.find? (fun r => r.id == qr.id.getD 0)
      else ledger.find? (fun r => r.lectura == qr.lectura.getD "")
    match product? with
    | none => (st, ledger, [])
    | some product =>
      let almacen := product.almacen
      let used := usedLocationSet ledger almacen
      match findAvailablePosition used with
      | none => (st, ledger, [])
      | some availablePosition =>
        let productId :=
          if jsTruthyNat qr.id then toString (qr.id.getD 0) else qr.lectura.getD ""
        let st' : SystemState :=
          { st with
            currentOperation := some
              { type := "entrada"
                position := availablePosition
                cantidad := cantidad
                productId := productId
                almacen := almacen
                phase := "picking_from_storage"
                agvTargetPosition := availablePosition
                mode := none }
            pendingBoxes := cantidad }
        let pubs :=
          if almacen = "Vera" then
            [("PR2A1/acciones/directriz", entradaDirective cantidad availablePosition)]
          else []
        let ledger' :=
          if jsTruthyNat qr.id then
            updateLocation ledger (qr.id.getD 0) availablePosition now
          else
            updateLocationByLectura ledger (qr.lectura.getD "") availablePosition now
        (st', ledger', pubs)

/-- The top-level functions actually declared in `src/backend/index.js`
(`function <name>` declarations). -/
def definedFunctions : List String :=
  [ "handleEmergencyStop", "handleQrCodeEntry", "publishMqttMessage"
  , "verifyPwd", "generateQRCode", "cleanup" ]

/-- The handler functions the `mqttClient.on('message')` dispatcher calls,
keyed by the subscribed topic whose branch calls them (lines 118–177). -/
def dispatchedHandlers : List (String × String) :=
  [ ("PR2A1/avisos/parada_emergencia", "handleEmergencyStop")
  , ("PR2A1/status/infrarrojos_1", "handleInfrared1StatusChange")
  , ("PR2A1/status/infrarrojos_2", "handleInfrared2StatusChange")
  , ("PR2A1/status/agv", "handleAgvReachedPosition")
  , ("PR2A1/avisos/QR", "handleQrCodeEntry") ]

/-! ## Theorems -/

theorem findAvailablePosition_some (used : List Nat) (pos : Nat)
    (hpos : findAvailablePosition used = some pos) :
    1 ≤ pos ∧ pos ≤ 5 ∧ used.contains pos = false ∧
      ∀ q, 1 ≤ q → q < pos → used.contains q = true := by
  cases h1 : used.contains 1 <;> cases h2 : used.contains 2 <;>
  cases h3 : used.contains 3 <;> cases h4 : used.contains 4 <;>
  cases h5 : used.contains 5 <;>
    simp only [findAvailablePosition, List.find?, h1, h2, h3, h4, h5,
      Bool.not_true, Bool.not_false, Option.some.injEq, reduceCtorEq] at hpos <;>
    subst hpos <;>
    refine ⟨by omega, by omega, by assumption, fun q hq hlt => ?_⟩ <;>
    (try omega) <;>
    interval_cases q <;> assumption

theorem findAvailablePosition_none (used : List Nat)
    (hnone : findAvailablePosition used = none) :
    ∀ q, 1 ≤ q → q ≤ 5 → used.contains q = true := by
  cases h1 : used.contains 1 <;> cases h2 : used.contains 2 <;>
  cases h3 : used.contains 3 <;> cases h4 : used.contains 4 <;>
  cases h5 : used.contains 5 <;>
    simp only [findAvailablePosition, List.find?, h1, h2, h3, h4, h5,
      Bool.not_true, Bool.not_false, reduceCtorEq] at hnone <;>
    (intro q hq hle; interval_cases q <;> assumption)

/-- C1: for every entrance request whose product is found, the assigned
slot is the lowest integer in 1..5 not contained in the set of locations
occupied by records of the same warehouse read from the ledger; when all
five positions of that warehouse are occupied the request fails with HTTP
400 and no slot is assigned (state, ledger and publishes unchanged); the
MQTT entrance path likewise assigns nothing when the warehouse is full. -/
theorem entrance_assigns_lowest_free_slot (st : SystemState)
    (ledger : List RepartoRecord) (pid : Nat) (now : Nat)
    (product : RepartoRecord)
    (hfind : ledger.find? (fun r => r.id == pid) = some product) :
    (∀ pos, findAvailablePosition (usedLocationSet ledger product.almacen) = some pos →
       (qrEntrada st ledger (some pid) now).status = 200 ∧
       (qrEntrada st ledger (some pid) now).location = some pos ∧
       1 ≤ pos ∧ pos ≤ 5 ∧
       (usedLocationSet ledger product.almacen).contains pos = false ∧
       ∀ q, 1 ≤ q → q < pos →
         (usedLocationSet ledger product.almacen).contains q = true) ∧
    (findAvailablePosition (usedLocationSet ledger product.almacen) = none →
       (∀ q, 1 ≤ q → q ≤ 5 →
          (usedLocationSet ledger product.almacen).contains q = true) ∧
       (qrEntrada st ledger (some pid) now).status = 400 ∧
       (qrEntrada st ledger (some pid) now).location = none ∧
       (qrEntrada st ledger (some pid) now).state = st ∧
       (qrEntrada st ledger (some pid) now).ledger = ledger ∧
       (qrEntrada st ledger (some pid) now).published = [] ∧
       ∀ c, handleQrCodeEntry st ledger ⟨some pid, c, none⟩ now = (st, ledger, [])) := by
  constructor
  · intro pos hpos
    have h := findAvailablePosition_some _ _ hpos
    refine ⟨?_, ?_, h.1, h.2.1, h.2.2.1, h.2.2.2⟩ <;>
      simp only [qrEntrada, hfind, hpos]
  · intro hnone
    refine ⟨findAvailablePosition_none _ hnone, ?_, ?_, ?_, ?_, ?_, fun c => ?_⟩ <;>
      try simp only [qrEntrada, hfind, hnone]
    cases pid with
    | zero => rfl
    | succ n => simp [handleQrCodeEntry, jsTruthyNat, hfind, hnone]

/-- C1 witness: in a warehouse where only position 1 is occupied, the
entrance for product 2 is assigned position 2. -/
theorem entrance_assigns_lowest_free_slot_witness :
    (qrEntrada initialSystemState
        [⟨1, "Vera", "A", some 1, some 12, none⟩,
         ⟨2, "Vera", "B", none, some 3, none⟩] (some 2) 7).status = 200 ∧
    (qrEntrada initialSystemState
        [⟨1, "Vera", "A", some 1, some 12, none⟩,
         ⟨2, "Vera", "B", none, some 3, none⟩] (some 2) 7).location = some 2 := by
  have h := (entrance_assigns_lowest_free_slot initialSystemState
    [⟨1, "Vera", "A", some 1, some 12, none⟩, ⟨2, "Vera", "B", none, some 3, none⟩]
    2 7 ⟨2, "Vera", "B", none, some 3, none⟩ (by rfl)).1 2 (by rfl)
  exact ⟨h.1, h.2.1⟩

/-- C2: any message on the emergency-stop topic sets `emergencyStop`,
clears `currentOperation` and zeroes `pendingBoxes`, and a second
consecutive emergency message leaves the state identical (the handler is
idempotent on the system state). -/
theorem emergency_message_clears_state_idempotent (st : SystemState) :
    (onEmergencyMessage st).1.emergencyStop = true ∧
    (onEmergencyMessage st).1.currentOperation = none ∧
    (onEmergencyMessage st).1.pendingBoxes = 0 ∧
    (onEmergencyMessage (onEmergencyMessage st).1).1 = (onEmergencyMessage st).1 := by
  refine ⟨rfl, rfl, rfl, rfl⟩

/-- C9: an authorized reset-emergency request clears `emergencyStop` and
changes no other field of the system state; in particular no operation is
restored. -/
theorem reset_emergency_clears_only_flag (adminPwd : String)
    (password : Option String) (st : SystemState)
    (hauth : verifyPwd adminPwd password = true) :
    (resetEmergency adminPwd password st).1 = 200 ∧
    (resetEmergency adminPwd password st).2.emergencyStop = false ∧
    (resetEmergency adminPwd password st).2.conveyor1Status = st.conveyor1Status ∧
    (resetEmergency adminPwd password st).2.conveyor2Status = st.conveyor2Status ∧
    (resetEmergency adminPwd password st).2.infrared1Status = st.infrared1Status ∧
    (resetEmergency adminPwd password st).2.infrared2Status = st.infrared2Status ∧
    (resetEmergency adminPwd password st).2.agvStatus = st.agvStatus ∧
    (resetEmergency adminPwd password st).2.pendingBoxes = st.pendingBoxes ∧
    (resetEmergency adminPwd password st).2.currentOperation = st.currentOperation := by
  simp [resetEmergency, hauth]

/-- C9 witness: resetting the emergency on a state with an active
operation and pending boxes keeps both and only clears the flag. -/
theorem reset_emergency_clears_only_flag_witness :
    verifyPwd "pw" (some "pw") = true ∧
    (resetEmergency "pw" (some "pw")
      { initialSystemState with emergencyStop := true, pendingBoxes := 7 }).2.pendingBoxes = 7 ∧
    (resetEmergency "pw" (some "pw")
      { initialSystemState with emergencyStop := true, pendingBoxes := 7 }).2.emergencyStop = false := by
  have h := reset_emergency_clears_only_flag "pw" (some "pw")
    { initialSystemState with emergencyStop := true, pendingBoxes := 7 } (by rfl)
  exact ⟨by rfl, h.2.2.2.2.2.2.2.1, h.2.1⟩

/-- C10: a successful salida-centro request leaves `pendingBoxes` at its
prior value while setting `currentOperation`; a successful
salida-particulares request sets `pendingBoxes` to the created operation's
box count. -/
theorem salida_centro_keeps_pending_boxes (adminPwd : String)
    (password : Option String) (st : SystemState)
    (ledger : List RepartoRecord) (id : Nat) :
    ((salidaCentro adminPwd password st ledger id).status = 200 →
       (salidaCentro adminPwd password st ledger id).state.pendingBoxes = st.pendingBoxes ∧
       (salidaCentro adminPwd password st ledger id).state.currentOperation ≠ none) ∧
    ((salidaParticulares adminPwd password st ledger id).status = 200 →
       ∃ op, (salidaParticulares adminPwd password st ledger id).state.currentOperation = some op ∧
         (salidaParticulares adminPwd password st ledger id).state.pendingBoxes = op.cantidad) := by
  cases hv : verifyPwd adminPwd password with
  | false =>
    constructor <;> intro h <;>
      simp [salidaCentro, salidaParticulares, salidaBody, hv] at h
  | true =>
    cases hf : ledger.find? (fun r => r.id == id) with
    | none =>
      constructor <;> intro h <;>
        simp [salidaCentro, salidaParticulares, salidaBody, hv, hf] at h
    | some reparto =>
      cases hl : jsTruthyNat reparto.location with
      | false =>
        constructor <;> intro h <;>
          simp [salidaCentro, salidaParticulares, salidaBody, hv, hf, hl] at h
      | true =>
        constructor
        · intro h
          constructor <;> simp [salidaCentro, salidaBody, hv, hf, hl]
        · intro h
          refine ⟨{ type := "salida_particulares"
                    position := reparto.location.getD 0
                    cantidad := jsOrNat reparto.cantidad 10
                    productId := reparto.lectura
                    almacen := reparto.almacen
                    phase := "picking_from_storage"
                    agvTargetPosition := reparto.location.getD 0
                    mode := none }, ?_, ?_⟩ <;>
            simp [salidaParticulares, salidaBody, hv, hf, hl]

/-- C10 witness: on a one-row ledger with a stored product, salida-centro
leaves `pendingBoxes` at 0 and salida-particulares raises it to the
record's box count 5. -/
theorem salida_centro_keeps_pending_boxes_witness :
    (salidaCentro "pw" (some "pw") initialSystemState
       [⟨1, "Vera", "L", some 2, some 5, none⟩] 1).state.pendingBoxes
      = initialSystemState.pendingBoxes ∧
    ∃ op, (salidaParticulares "pw" (some "pw") initialSystemState
       [⟨1, "Vera", "L", some 2, some 5, none⟩] 1).state.currentOperation = some op ∧
      (salidaParticulares "pw" (some "pw") initialSystemState
       [⟨1, "Vera", "L", some 2, some 5, none⟩] 1).state.pendingBoxes = op.cantidad := by
  have h := salida_centro_keeps_pending_boxes "pw" (some "pw") initialSystemState
    [⟨1, "Vera", "L", some 2, some 5, none⟩] 1
  exact ⟨(h.1 (by rfl)).1, h.2 (by rfl)⟩

/-- C4: the MQTT dispatcher calls `handleInfrared1StatusChange`,
`handleInfrared2StatusChange` and `handleAgvReachedPosition` on the
infrared and AGV topics, but none of these three functions is declared
anywhere in the source file, so those branches throw a `ReferenceError`
when a message arrives instead of invoking a defined handler. -/
theorem infrared_and_agv_handlers_not_defined :
    dispatchedHandlers.contains ("PR2A1/status/infrarrojos_1", "handleInfrared1StatusChange") = true ∧
    dispatchedHandlers.contains ("PR2A1/status/infrarrojos_2", "handleInfrared2StatusChange") = true ∧
    dispatchedHandlers.contains ("PR2A1/status/agv", "handleAgvReachedPosition") = true ∧
    definedFunctions.contains "handleInfrared1StatusChange" = false ∧
    definedFunctions.contains "handleInfrared2StatusChange" = false ∧
    definedFunctions.contains "handleAgvReachedPosition" = false := by
  refine ⟨rfl, rfl, rfl, rfl, rfl, rfl⟩

/-- C7: with valid authorization, both exit endpoints answer 404 when no
ledger record has the requested id and 400 when the record's location is
null, and in both failure cases the system state, the ledger and the set
of published messages are untouched. -/
theorem salida_failures_do_not_mutate (adminPwd : String)
    (password : Option String) (st : SystemState)
    (ledger : List RepartoRecord) (id : Nat)
    (hauth : verifyPwd adminPwd password = true) :
    (ledger.find? (fun r => r.id == id) = none →
       (salidaParticulares adminPwd password st ledger id).status = 404 ∧
       (salidaParticulares adminPwd password st ledger id).state = st ∧
       (salidaParticulares adminPwd password st ledger id).ledger = ledger ∧
       (salidaParticulares adminPwd password st ledger id).published = [] ∧
       (salidaCentro adminPwd password st ledger id).status = 404 ∧
       (salidaCentro adminPwd password st ledger id).state = st ∧
       (salidaCentro adminPwd password st ledger id).ledger = ledger ∧
       (salidaCentro adminPwd password st ledger id).published = []) ∧
    (∀ reparto, ledger.find? (fun r => r.id == id) = some reparto →
       reparto.location = none →
       (salidaParticulares adminPwd password st ledger id).status = 400 ∧
       (salidaParticulares adminPwd password st ledger id).state = st ∧
       (salidaParticulares adminPwd password st ledger id).ledger = ledger ∧
       (salidaParticulares adminPwd password st ledger id).published = [] ∧
       (salidaCentro adminPwd password st ledger id).status = 400 ∧
       (salidaCentro adminPwd password st ledger id).state = st ∧
       (salidaCentro adminPwd password st ledger id).ledger = ledger ∧
       (salidaCentro adminPwd password st ledger id).published = []) := by
  constructor
  · intro hnone
    simp [salidaParticulares, salidaCentro, salidaBody, hauth, hnone]
  · intro reparto hfind hloc
    simp [salidaParticulares, salidaCentro, salidaBody, hauth, hfind,
      jsTruthyNat, hloc]

/-- C7 witness: with an empty ledger the exits answer 404; with a record
whose location is null they answer 400; neither changes anything. -/
theorem salida_failures_do_not_mutate_witness :
    verifyPwd "pw" (some "pw") = true ∧
    (salidaParticulares "pw" (some "pw") initialSystemState [] 1).status = 404 ∧
    (salidaCentro "pw" (some "pw") initialSystemState [] 1).state = initialSystemState ∧
    (salidaParticulares "pw" (some "pw") initialSystemState
      [⟨1, "Vera", "L", none, some 5, none⟩] 1).status = 400 ∧
    (salidaCentro "pw" (some "pw") initialSystemState
      [⟨1, "Vera", "L", none, some 5, none⟩] 1).ledger =
        [⟨1, "Vera", "L", none, some 5, none⟩] := by
  have h1 := (salida_failures_do_not_mutate "pw" (some "pw") initialSystemState [] 1
    (by rfl)).1 (by rfl)
  have h2 := (salida_failures_do_not_mutate "pw" (some "pw") initialSystemState
    [⟨1, "Vera", "L", none, some 5, none⟩] 1 (by rfl)).2
    ⟨1, "Vera", "L", none, some 5, none⟩ (by rfl) (by rfl)
  exact ⟨by rfl, h1.1, h1.2.2.2.2.2.1, h2.1, h2.2.2.2.2.2.2.1⟩

/-- C8 counterexample: with an active operation whose warehouse is the
empty string — a site different from "Vera" — the handler still publishes
the four real stop directives instead of transmitting nothing, because
`currentOperation?.almacen || "Vera"` treats the empty string as absent. -/
theorem emergency_stop_empty_site_counterexample :
    "" ≠ "Vera" ∧
    (handleEmergencyStop { initialSystemState with currentOperation := some ⟨"entrada", 1, 1, "x", "", "picking_from_storage", 1, none⟩ }).2.length = 4 := by
  exact ⟨by decide, rfl⟩

/-- C8 (amended): the emergency handler takes the site from the active
operation when its site is non-empty, and the default "Vera" when there is
no active operation or its site is the empty string; for site "Vera" it
publishes exactly the four stop directives (conveyor 1, conveyor 2,
palletizing carrying the operation's mode when present and non-empty and
"paletizar" otherwise, cobot pickup), and for any other non-empty site it
transmits nothing. -/
theorem emergency_stop_site_policy (st : SystemState) :
    (∀ op, st.currentOperation = some op → op.almacen ≠ "" →
       (op.almacen = "Vera" →
          (handleEmergencyStop st).2 =
            emergencyStopDirectives (jsOrString op.mode "paletizar")) ∧
       (op.almacen ≠ "Vera" → (handleEmergencyStop st).2 = [])) ∧
    (st.currentOperation = none →
       (handleEmergencyStop st).2 = emergencyStopDirectives "paletizar") ∧
    (∀ op, st.currentOperation = some op → op.almacen = "" →
       (handleEmergencyStop st).2 =
         emergencyStopDirectives (jsOrString op.mode "paletizar")) := by
  refine ⟨fun op hop hne => ⟨fun hv => ?_, fun hnv => ?_⟩, fun hn => ?_, fun op hop he => ?_⟩
  · simp [handleEmergencyStop, emergencyStopDirectives, hop, jsOrString, hne, hv]
  · simp [handleEmergencyStop, hop, jsOrString, hne, hnv]
  · simp [handleEmergencyStop, emergencyStopDirectives, hn, jsOrString]
  · simp [handleEmergencyStop, emergencyStopDirectives, hop, jsOrString, he]

/-- C8 witness: an active operation at site "Gandia" transmits nothing;
with no active operation the four "Vera" stop directives are published. -/
theorem emergency_stop_site_policy_witness :
    (handleEmergencyStop { initialSystemState with currentOperation := some ⟨"entrada", 2, 3, "y", "Gandia", "picking_from_storage", 2, none⟩ }).2 = [] ∧
    (handleEmergencyStop initialSystemState).2 =
      emergencyStopDirectives "paletizar" := by
  constructor
  · exact ((emergency_stop_site_policy _).1
      ⟨"entrada", 2, 3, "y", "Gandia", "picking_from_storage", 2, none⟩
      rfl (by decide)).2 (by decide)
  · exact (emergency_stop_site_policy initialSystemState).2.1 rfl

/-- C5 counterexample: `/api/qr-entrada` is a state-mutating start-entrance
request, yet with an incorrect password it still answers 200 and mutates
the system state, because the route never calls `verifyPwd`. -/
theorem qr_entrada_skips_authorization_counterexample :
    verifyPwd "pw" (some "wrong") = false ∧
    (qrEntradaRoute "pw" (some "wrong") initialSystemState
       [⟨1, "Vera", "L", none, some 12, none⟩] (some 1) 5).status = 200 ∧
    (qrEntradaRoute "pw" (some "wrong") initialSystemState
       [⟨1, "Vera", "L", none, some 12, none⟩] (some 1) 5).state
      ≠ initialSystemState := by
  exact ⟨by decide, rfl, by decide⟩

/-- C5 (amended): the exit endpoints and reset-emergency reject an
incorrect or missing credential with 403 and change neither the system
state nor the ledger nor publish anything; the start-entrance endpoint
performs no credential check at all — its outcome is identical for every
credential. -/
theorem unauthorized_requests_rejected_except_entrance (adminPwd : String)
    (password : Option String) (st : SystemState)
    (ledger : List RepartoRecord) (id : Nat) (eid : Option Nat) (now : Nat)
    (hbad : verifyPwd adminPwd password = false) :
    (salidaParticulares adminPwd password st ledger id).status = 403 ∧
    (salidaParticulares adminPwd password st ledger id).state = st ∧
    (salidaParticulares adminPwd password st ledger id).ledger = ledger ∧
    (salidaParticulares adminPwd password st ledger id).published = [] ∧
    (salidaCentro adminPwd password st ledger id).status = 403 ∧
    (salidaCentro adminPwd password st ledger id).state = st ∧
    (salidaCentro adminPwd password st ledger id).ledger = ledger ∧
    (salidaCentro adminPwd password st ledger id).published = [] ∧
    resetEmergency adminPwd password st = (403, st) ∧
    ∀ p2, qrEntradaRoute adminPwd password st ledger eid now =
      qrEntradaRoute adminPwd p2 st ledger eid now := by
  simp [salidaParticulares, salidaCentro, salidaBody, resetEmergency,
    qrEntradaRoute, hbad]

/-- C5 witness: a wrong password is rejected by salida-particulares,
salida-centro and reset-emergency without any mutation. -/
theorem unauthorized_requests_rejected_except_entrance_witness :
    verifyPwd "pw" (some "bad") = false ∧
    (salidaParticulares "pw" (some "bad") initialSystemState
       [⟨1, "Vera", "L", some 1, some 5, none⟩] 1).status = 403 ∧
    (salidaCentro "pw" (some "bad") initialSystemState
       [⟨1, "Vera", "L", some 1, some 5, none⟩] 1).ledger =
      [⟨1, "Vera", "L", some 1, some 5, none⟩] ∧
    resetEmergency "pw" (some "bad") initialSystemState =
      (403, initialSystemState) := by
  have h := unauthorized_requests_rejected_except_entrance "pw" (some "bad")
    initialSystemState [⟨1, "Vera", "L", some 1, some 5, none⟩] 1 none 0 (by decide)
  exact ⟨by decide, h.1, h.2.2.2.2.2.2.1, h.2.2.2.2.2.2.2.2.1⟩

/-- C6 counterexample: a successful start-entrance for a product stored at
the non-primary site "Gandia" transmits nothing, but its 200 response does
not carry `simulation=true` — the endpoint's response body has no
simulation key at all. -/
theorem entrance_success_lacks_simulation_flag :
    (qrEntrada initialSystemState [⟨1, "Gandia", "L", none, some 12, none⟩]
       (some 1) 5).status = 200 ∧
    (qrEntrada initialSystemState [⟨1, "Gandia", "L", none, some 12, none⟩]
       (some 1) 5).published = [] ∧
    (qrEntrada initialSystemState [⟨1, "Gandia", "L", none, some 12, none⟩]
       (some 1) 5).simulation ≠ some true := by
  exact ⟨rfl, rfl, by decide⟩

/-- C6 (amended): for a product at a site other than "Vera", a successful
startExit responds with `simulation=true` and transmits nothing through
the gateway; a successful startEntrance also transmits nothing, but its
response carries no simulation flag. -/
theorem non_primary_site_dispatch_simulated (adminPwd : String)
    (password : Option String) (st : SystemState)
    (ledger : List RepartoRecord) (id pid : Nat) (now : Nat) :
    (∀ reparto, ledger.find? (fun r => r.id == id) = some reparto →
       reparto.almacen ≠ "Vera" →
       (salidaParticulares adminPwd password st ledger id).published = [] ∧
       (salidaCentro adminPwd password st ledger id).published = [] ∧
       ((salidaParticulares adminPwd password st ledger id).status = 200 →
          (salidaParticulares adminPwd password st ledger id).simulation = some true) ∧
       ((salidaCentro adminPwd password st ledger id).status = 200 →
          (salidaCentro adminPwd password st ledger id).simulation = some true)) ∧
    (∀ product, ledger.find? (fun r => r.id == pid) = some product →
       product.almacen ≠ "Vera" →
       (qrEntrada st ledger (some pid) now).published = [] ∧
       (qrEntrada st ledger (some pid) now).simulation = none) := by
  constructor
  · intro reparto hf halm
    cases hv : verifyPwd adminPwd password with
    | false => simp [salidaParticulares, salidaCentro, salidaBody, hv]
    | true =>
      cases hl : jsTruthyNat reparto.location with
      | false => simp [salidaParticulares, salidaCentro, salidaBody, hv, hf, hl]
      | true => simp [salidaParticulares, salidaCentro, salidaBody, hv, hf, hl, halm]
  · intro product hf halm
    cases hp : findAvailablePosition (usedLocationSet ledger product.almacen) with
    | none => simp [qrEntrada, hf, hp]
    | some pos => simp [qrEntrada, hf, hp, halm]

/-- C6 witness: salida-particulares of a product stored at "Gandia"
answers with `simulation=true` and publishes nothing; the entrance of a
"Gandia" product also publishes nothing. -/
theorem non_primary_site_dispatch_simulated_witness :
    (salidaParticulares "pw" (some "pw") initialSystemState
       [⟨1, "Gandia", "L", some 3, some 4, none⟩] 1).simulation = some true ∧
    (salidaParticulares "pw" (some "pw") initialSystemState
       [⟨1, "Gandia", "L", some 3, some 4, none⟩] 1).published = [] ∧
    (qrEntrada initialSystemState [⟨2, "Gandia", "M", none, some 4, none⟩]
       (some 2) 9).published = [] := by
  have h := non_primary_site_dispatch_simulated "pw" (some "pw")
    initialSystemState [⟨1, "Gandia", "L", some 3, some 4, none⟩] 1 2 9
  have h2 := non_primary_site_dispatch_simulated "pw" (some "pw")
    initialSystemState [⟨2, "Gandia", "M", none, some 4, none⟩] 1 2 9
  exact ⟨(h.1 ⟨1, "Gandia", "L", some 3, some 4, none⟩ (by rfl) (by decide)).2.2.1 (by rfl),
    (h.1 ⟨1, "Gandia", "L", some 3, some 4, none⟩ (by rfl) (by decide)).1,
    (h2.2 ⟨2, "Gandia", "M", none, some 4, none⟩ (by rfl) (by decide)).1⟩

theorem usedLocationSet_nil_of_no_locations (ledger : List RepartoRecord)
    (h : ∀ r ∈ ledger, r.almacen = "Vera" → r.location = none) :
    usedLocationSet ledger "Vera" = [] := by
  have hf : ledger.filter (fun r => r.location.isSome && r.almacen == "Vera") = [] := by
    rw [List.filter_eq_nil_iff]
    intro r hr
    by_cases ha : r.almacen = "Vera"
    · have hl := h r hr ha
      simp [hl, ha]
    · simp [ha]
  unfold usedLocationSet
  rw [hf]
  rfl

theorem find_updateLocation (ledger : List RepartoRecord) (id loc now : Nat)
    (row : RepartoRecord)
    (h : ledger.find? (fun r => r.id == id) = some row) :
    (updateLocation ledger id loc now).find? (fun r => r.id == id) =
      some { row with location := some loc, timestampRecepcion := some now } := by
  induction ledger with
  | nil => simp [List.find?] at h
  | cons r t ih =>
    cases hr : (r.id == id) with
    | true =>
      simp only [List.find?, hr] at h
      injection h with h
      subst h
      unfold updateLocation
      simp [List.map_cons, List.find?, hr]
    | false =>
      simp only [List.find?, hr] at h
      have ih' := ih h
      unfold updateLocation at ih' ⊢
      simp only [List.map_cons, hr, Bool.false_eq_true, reduceIte, List.find?]
      exact ih'

/-- C3: if the ledger record 42 has warehouse "Vera", 12 boxes and no
location, and no "Vera" record is stored anywhere, then start-entrance(42)
answers 200 with location 1 and cantidad 12, publishes the entrada
directive for 12 boxes at position 1 to the directive topic, and updates
row 42 to location 1 with the fresh receipt timestamp. -/
theorem start_entrance_vera_scenario (st : SystemState)
    (ledger : List RepartoRecord) (now : Nat) (product : RepartoRecord)
    (hfind : ledger.find? (fun r => r.id == 42) = some product)
    (halm : product.almacen = "Vera") (hcant : product.cantidad = some 12)
    (hloc : ∀ r ∈ ledger, r.almacen = "Vera" → r.location = none) :
    (qrEntrada st ledger (some 42) now).status = 200 ∧
    (qrEntrada st ledger (some 42) now).location = some 1 ∧
    (qrEntrada st ledger (some 42) now).cantidad = some 12 ∧
    (qrEntrada st ledger (some 42) now).published =
      [("PR2A1/acciones/directriz",
        "\x7b\"accion\": \"entrada\", \"cantidad\": \"12\", \"posicion\": \"1\"\x7d")] ∧
    (qrEntrada st ledger (some 42) now).ledger.find? (fun r => r.id == 42) =
      some { product with location := some 1, timestampRecepcion := some now } := by
  have hused : usedLocationSet ledger product.almacen = [] := by
    rw [halm]
    exact usedLocationSet_nil_of_no_locations ledger hloc
  have hpos : findAvailablePosition (usedLocationSet ledger product.almacen) = some 1 := by
    rw [hused]
    rfl
  refine ⟨?_, ?_, ?_, ?_, ?_⟩
  · simp only [qrEntrada, hfind, hpos]
  · simp only [qrEntrada, hfind, hpos]
  · simp only [qrEntrada, hfind, hpos, hcant]
    rfl
  · simp only [qrEntrada, hfind, hpos, hcant]
    simp only [halm]
    rfl
  · simp only [qrEntrada, hfind, hpos]
    exact find_updateLocation ledger 42 1 now product hfind

/-- C3 witness: the scenario instantiated on the one-row ledger holding
exactly record 42 at "Vera" with 12 boxes and no location. -/
theorem start_entrance_vera_scenario_witness :
    (qrEntrada initialSystemState [⟨42, "Vera", "L42", none, some 12, none⟩]
       (some 42) 99).status = 200 ∧
    (qrEntrada initialSystemState [⟨42, "Vera", "L42", none, some 12, none⟩]
       (some 42) 99).location = some 1 ∧
    (qrEntrada initialSystemState [⟨42, "Vera", "L42", none, some 12, none⟩]
       (some 42) 99).cantidad = some 12 ∧
    (qrEntrada initialSystemState [⟨42, "Vera", "L42", none, some 12, none⟩]
       (some 42) 99).published =
      [("PR2A1/acciones/directriz",
        "\x7b\"accion\": \"entrada\", \"cantidad\": \"12\", \"posicion\": \"1\"\x7d")] ∧
    (qrEntrada initialSystemState [⟨42, "Vera", "L42", none, some 12, none⟩]
       (some 42) 99).ledger.find? (fun r => r.id == 42) =
      some ⟨42, "Vera", "L42", some 1, some 12, some 99⟩ := by
  exact start_entrance_vera_scenario initialSystemState
    [⟨42, "Vera", "L42", none, some 12, none⟩] 99
    ⟨42, "Vera", "L42", none, some 12, none⟩ (by rfl) (by rfl) (by rfl)
    (by intro r hr _; rw [List.mem_singleton.mp hr])
